import Mathlib

/-!
A shallow embedding of the LogDrift log-anomaly detector (Go sources:
`main.go`, a config/filter file and a CLI file) for verifying its
specification.

Conventions of the embedding:
* A Go `string` is modelled as `List Char` (`Str`).  Case mapping is the
  ASCII mapping (`Char.toLower`); Go applies the Unicode simple mapping,
  which agrees with the ASCII mapping on all ASCII text and on every
  character relevant to the keyword sets used by the program.
* A compiled regular expression is modelled as its matching function
  `Str → Bool` (`Pat`); `regexp.Compile` — an external library call — is
  modelled as an oracle parameter `Str → Except Str Pat`.
* The one regular expression whose structure the program logic depends on,
  the structured-level matcher `(?i)\b(FATAL|CRITICAL|ERROR|WARN|INFO|DEBUG)\s+\[`,
  and the component extractor `\[([^\]]+)\]`, are modelled concretely
  below, following RE2 leftmost-match semantics (ASCII `\b`, `\s` as
  the RE2 space class, greedy runs).
* Go `int` is modelled as `Int` (scores and thresholds stay far below
  any 64-bit bound for any realistic pattern list and line).
* `time.Time` fields and printing are not modelled: no claim concerns them.
-/

abbrev Str := List Char

abbrev Pat := Str → Bool

/-- Go `strings.ToLower`, restricted to the ASCII mapping. -/
def lowerStr (s : Str) : Str := s.map Char.toLower

/-- Go `strings.Contains s pat`: does `pat` occur as a contiguous substring? -/
def strContains : Str → Str → Bool
  | [], pat => pat.isEmpty
  | c :: rest, pat => pat.isPrefixOf (c :: rest) || strContains rest pat

/-- The RE2 `\s` class: `[\t\n\f\r ]`. -/
def isSpaceRE (c : Char) : Bool :=
  c == ' ' || c == '\t' || c == '\n' || c == '\x0c' || c == '\x0d'

/-- The RE2 ASCII word-character class `[0-9A-Za-z_]`, used by `\b`. -/
def isWordChar (c : Char) : Bool := c.isAlphanum || c == '_'

/-- Go `unicode.IsSpace`, restricted to ASCII space characters. -/
def isSpaceGo (c : Char) : Bool :=
  c == ' ' || c == '\t' || c == '\n' || c == '\x0b' || c == '\x0c' || c == '\x0d'

/-- Go `strings.TrimSpace`. -/
def trimSpace (s : Str) : Str :=
  ((s.dropWhile isSpaceGo).reverse.dropWhile isSpaceGo).reverse

/-- Severity of a log entry: `LogLevel` from `main.go` (iota order). -/
inductive LogLevel where
  | DEBUG
  | INFO
  | WARN
  | ERROR
  | FATAL
deriving DecidableEq, Repr

/-- The underlying iota value of a level. -/
def LogLevel.toNat : LogLevel → Nat
  | .DEBUG => 0
  | .INFO => 1
  | .WARN => 2
  | .ERROR => 3
  | .FATAL => 4

/-- Go `<` on `LogLevel` values (comparison of the iota integers). -/
def LogLevel.lt (a b : LogLevel) : Bool := Nat.blt a.toNat b.toNat

/-- One of the six alternatives of the structured-level regex. -/
inductive LvlToken where
  | TFATAL
  | TCRITICAL
  | TERROR
  | TWARN
  | TINFO
  | TDEBUG
deriving DecidableEq, Repr

/-- The literal (upper-case) characters of each token. -/
def tokenChars : LvlToken → Str
  | .TFATAL => ("FATAL".data)
  | .TCRITICAL => ("CRITICAL".data)
  | .TERROR => ("ERROR".data)
  | .TWARN => ("WARN".data)
  | .TINFO => ("INFO".data)
  | .TDEBUG => ("DEBUG".data)

/-- The alternation order of the regex `(FATAL|CRITICAL|ERROR|WARN|INFO|DEBUG)`. -/
def tokenOrder : List LvlToken :=
  [.TFATAL, .TCRITICAL, .TERROR, .TWARN, .TINFO, .TDEBUG]

/-- Case-insensitively consume `pat` from the front of `s`; return the rest. -/
def ciDropToken : Str → Str → Option Str
  | [], s => some s
  | _ :: _, [] => none
  | p :: ps, c :: cs =>
    if Char.toLower c == Char.toLower p then ciDropToken ps cs else none

/-- Match `\s+\[` at the front of `s` (greedy run of spaces, then `[`). -/
def spacesThenLBracket : Str → Bool
  | [] => false
  | c :: cs =>
    isSpaceRE c &&
      (match cs.dropWhile isSpaceRE with
       | '[' :: _ => true
       | _ => false)

/-- Try one alternation branch of the structured-level regex at this position. -/
def tryToken (t : LvlToken) (s : Str) : Option LvlToken :=
  match ciDropToken (tokenChars t) s with
  | some rest => if spacesThenLBracket rest then some t else none
  | none => none

/-- Match `(FATAL|CRITICAL|ERROR|WARN|INFO|DEBUG)\s+\[` at this position,
trying the branches in alternation order (backtracking preference). -/
def matchTokenAt (s : Str) : Option LvlToken :=
  tokenOrder.findSome? (fun t => tryToken t s)

/-- Scan for the leftmost structured-level match.  `bdry` records whether a
`\b` holds before the current position (start of string, or the previous
character is not a word character — every token starts with a letter). -/
def findStructAux : Bool → Str → Option LvlToken
  | _, [] => none
  | bdry, c :: cs =>
    match (if bdry then matchTokenAt (c :: cs) else none) with
    | some t => some t
    | none => findStructAux (!(isWordChar c)) cs

/-- The `FindStringSubmatch` call on `(?i)\b(FATAL|CRITICAL|ERROR|WARN|INFO|DEBUG)\s+\[`:
the captured token of the leftmost match, if any. -/
def findStructToken (s : Str) : Option LvlToken := findStructAux true s

/-- Config from the config/filter source file. -/
structure Config where
  ErrorPatterns : List Str
  SlowPatterns : List Str
  SuspiciousPatterns : List Str
  CustomPatterns : List (Str × Str)
  AnomalyThreshold : Int
  SlowThresholdMs : Int
  ShowDebug : Bool
  ShowInfo : Bool
  ColorOutput : Bool
  CompactOutput : Bool
  IncludeComponents : List Str
  ExcludeComponents : List Str
  MinLevel : Str

/-- The `DefaultConfig` value from the config source file. -/
def DefaultConfig : Config where
  ErrorPatterns :=
    [ ("(?i)(error|exception|fatal|panic|traceback)".data)
    , ("5\\d\x7b2\x7d\\s".data)
    , ("(?i)(failed|failure|timeout)".data)
    , ("(?i)(connection refused|broken pipe)".data)
    , ("(?i)(out of memory|oom)".data)
    , ("(?i)(segmentation fault|core dump)".data) ]
  SlowPatterns :=
    [ ("(?i)(\\d+(?:\\.\\d+)?)(ms|s)\\s.*?(slow|timeout)".data)
    , ("response_time[=:]\\s*([5-9]\\d\x7b2,\x7d|\\d\x7b4,\x7d)".data)
    , ("latency[=:]\\s*([5-9]\\d\x7b2,\x7d|\\d\x7b4,\x7d)".data) ]
  SuspiciousPatterns :=
    [ ("(?i)(DROP|REJECT|blocked?|denied|unauthorized)".data)
    , ("(?i)(brute.?force|injection|xss|csrf)".data)
    , ("(?i)(malware|virus|exploit)".data) ]
  CustomPatterns := []
  AnomalyThreshold := 40
  SlowThresholdMs := 500
  ShowDebug := false
  ShowInfo := false
  ColorOutput := true
  CompactOutput := false
  IncludeComponents := []
  ExcludeComponents := []
  MinLevel := ("WARN".data)

/-- Source `parseMinLevel`: map the `MinLevel` string to a level; unknown values
default to `DEBUG`. -/
def Config.parseMinLevel (c : Config) : LogLevel :=
  if c.MinLevel == ("FATAL".data) then .FATAL
  else if c.MinLevel == ("ERROR".data) then .ERROR
  else if c.MinLevel == ("WARN".data) then .WARN
  else if c.MinLevel == ("INFO".data) then .INFO
  else .DEBUG

/-- Source `extractComponent`: the capture of the leftmost match of `\[([^\]]+)\]`,
or the empty string when there is none. -/
def extractComponent : Str → Str
  | [] => []
  | c :: rest =>
    if c == '[' then
      let seg := rest.takeWhile (fun x => !(x == ']'))
      match rest.dropWhile (fun x => !(x == ']')) with
      | ']' :: _ => if seg.isEmpty then extractComponent rest else seg
      | _ => extractComponent rest
    else extractComponent rest

/-- The `LogEntry` record from `main.go` (the `Timestamp` field is not modelled). -/
structure LogEntry where
  Level : LogLevel
  Message : Str
  Raw : Str
  IsAnomaly : Bool
  Score : Int

/-- Source `ShouldShow`: level gate, then include gate, then exclude gate. -/
def Config.ShouldShow (c : Config) (entry : LogEntry) : Bool :=
  let minLevel := c.parseMinLevel
  if LogLevel.lt entry.Level minLevel then false
  else
    let component := extractComponent entry.Raw
    if decide (0 < c.IncludeComponents.length) && !(c.IncludeComponents.contains component) then
      false
    else
      !(c.ExcludeComponents.contains component)

/-- Compile one list of pattern strings, stopping at the first failure
(the loop bodies of `CompilePatterns`). -/
def compileList (compile : Str → Except Str Pat) : List Str → Except Str (List Pat)
  | [] => Except.ok []
  | p :: rest =>
    match compile p with
    | Except.error e => Except.error e
    | Except.ok re =>
      match compileList compile rest with
      | Except.error e => Except.error e
      | Except.ok rs => Except.ok (re :: rs)

/-- Source `CompilePatterns`: compile the three category lists in order,
bubbling up the first compile error. -/
def Config.CompilePatterns (c : Config) (compile : Str → Except Str Pat) :
    Except Str (List Pat × List Pat × List Pat) :=
  match compileList compile c.ErrorPatterns with
  | Except.error e => Except.error e
  | Except.ok errorRegexes =>
    match compileList compile c.SlowPatterns with
    | Except.error e => Except.error e
    | Except.ok slowRegexes =>
      match compileList compile c.SuspiciousPatterns with
      | Except.error e => Except.error e
      | Except.ok suspiciousRegexes =>
        Except.ok (errorRegexes, slowRegexes, suspiciousRegexes)

/-- The `AnomalyDetector` record from `main.go` (the `startTime` field is not modelled). -/
structure AnomalyDetector where
  errorPatterns : List Pat
  slowPatterns : List Pat
  suspiciousIPs : List Pat
  errorKeywords : List Str
  lineCount : Nat
  errorCount : Nat
  warnCount : Nat
  anomalyCount : Nat
  config : Config

/-- The keyword fallback list installed by `NewDetectorWithConfig`. -/
def defaultErrorKeywords : List Str :=
  [ ("error".data), ("exception".data), ("fatal".data), ("panic".data)
  , ("failed".data), ("timeout".data), ("refused".data), ("denied".data)
  , ("invalid".data), ("corrupt".data) ]

/-- Source `NewDetectorWithConfig`: compile the configured patterns; on any compile
error fall back to empty pattern sets so the program keeps running. -/
def NewDetectorWithConfig (compile : Str → Except Str Pat) (cfg : Config) :
    AnomalyDetector :=
  match cfg.CompilePatterns compile with
  | Except.error _ =>
    { errorPatterns := []
      slowPatterns := []
      suspiciousIPs := []
      errorKeywords := defaultErrorKeywords
      lineCount := 0, errorCount := 0, warnCount := 0, anomalyCount := 0
      config := cfg }
  | Except.ok (errorRegexes, slowRegexes, suspiciousRegexes) =>
    { errorPatterns := errorRegexes
      slowPatterns := slowRegexes
      suspiciousIPs := suspiciousRegexes
      errorKeywords := defaultErrorKeywords
      lineCount := 0, errorCount := 0, warnCount := 0, anomalyCount := 0
      config := cfg }

/-- Result of the level-classification block of `ParseLine`: inferred level,
score added in that block, and whether `errorCount` / `warnCount` tick. -/
structure LevelClass where
  level : LogLevel
  baseScore : Int
  errInc : Bool
  warnInc : Bool

/-- The level-classification block of `ParseLine`: structured token first,
keyword fallback chain otherwise. -/
def classifyLevel (line : Str) : LevelClass :=
  match findStructToken line with
  | some t =>
    match t with
    | .TFATAL => ⟨.FATAL, 100, true, false⟩
    | .TCRITICAL => ⟨.FATAL, 100, true, false⟩
    | .TERROR => ⟨.ERROR, 50, true, false⟩
    | .TWARN => ⟨.WARN, 20, false, true⟩
    | .TINFO => ⟨.INFO, 0, false, false⟩
    | .TDEBUG => ⟨.DEBUG, 0, false, false⟩
  | none =>
    let lineLower := lowerStr line
    if strContains lineLower ("fatal".data) || strContains lineLower ("critical".data) then
      ⟨.FATAL, 100, true, false⟩
    else if strContains lineLower ("error".data) && !(strContains lineLower ("errors=0".data)) then
      ⟨.ERROR, 50, true, false⟩
    else if strContains lineLower ("warn".data) then
      ⟨.WARN, 20, false, true⟩
    else if strContains lineLower ("info".data) then
      ⟨.INFO, 0, false, false⟩
    else
      ⟨.DEBUG, 0, false, false⟩

/-- One category loop of `ParseLine`: every matching pattern adds `w` to the
score and sets the provisional anomaly flag. -/
def scorePatterns (pats : List Pat) (line : Str) (w : Int) (score : Int) (anom : Bool) :
    Int × Bool :=
  match pats with
  | [] => (score, anom)
  | p :: rest =>
    if p line then scorePatterns rest line w (score + w) true
    else scorePatterns rest line w score anom

/-- Source `ParseLine`: classify the level, run the three pattern loops, then apply
the threshold decision; returns the entry and the updated detector. -/
def ParseLine (d : AnomalyDetector) (line : Str) : LogEntry × AnomalyDetector :=
  let cl := classifyLevel line
  let d1 : AnomalyDetector :=
    { d with
      lineCount := d.lineCount + 1
      errorCount := d.errorCount + (if cl.errInc then 1 else 0)
      warnCount := d.warnCount + (if cl.warnInc then 1 else 0) }
  let r1 := scorePatterns d.errorPatterns line 30 cl.baseScore false
  let r2 := scorePatterns d.slowPatterns line 25 r1.1 r1.2
  let r3 := scorePatterns d.suspiciousIPs line 40 r2.1 r2.2
  if r3.1 ≥ d.config.AnomalyThreshold then
    ( { Level := cl.level, Message := trimSpace line, Raw := line
      , IsAnomaly := true, Score := r3.1 }
    , { d1 with anomalyCount := d1.anomalyCount + 1 } )
  else
    ( { Level := cl.level, Message := trimSpace line, Raw := line
      , IsAnomaly := r3.2, Score := r3.1 }
    , d1 )

/-- The `CLIOptions` record from the CLI source file. -/
structure CLIOptions where
  ConfigFile : Str
  ShowAll : Bool
  ShowDebug : Bool
  ShowInfo : Bool
  NoColor : Bool
  Compact : Bool
  Component : Str
  MinLevel : Str
  OnlyAnomalies : Bool
  GenerateConfig : Bool
  Version : Bool

/-- The option values a run of `ParseCLI` yields when a flag is absent from
the command line: the defaults registered with the `flag` package.  In
particular the `--min-level` flag defaults to the string `WARN`. -/
def ParseCLIDefaults : CLIOptions where
  ConfigFile := []
  ShowAll := false
  ShowDebug := false
  ShowInfo := false
  NoColor := false
  Compact := false
  Component := []
  MinLevel := ("WARN".data)
  OnlyAnomalies := false
  GenerateConfig := false
  Version := false

/-- Source `ApplyToConfig`: mutate the config to reflect the CLI options, in the
fixed source order. -/
def CLIOptions.ApplyToConfig (o : CLIOptions) (cfg : Config) : Config :=
  let cfg :=
    if o.ShowAll then
      { cfg with ShowDebug := true, ShowInfo := true, MinLevel := ("DEBUG".data) }
    else cfg
  let cfg :=
    if o.ShowDebug then
      let cfg := { cfg with ShowDebug := true }
      if cfg.MinLevel == ("INFO".data) || cfg.MinLevel == ("WARN".data) then
        { cfg with MinLevel := ("DEBUG".data) }
      else cfg
    else cfg
  let cfg :=
    if o.ShowInfo then
      let cfg := { cfg with ShowInfo := true }
      if cfg.MinLevel == ("WARN".data) then { cfg with MinLevel := ("INFO".data) }
      else cfg
    else cfg
  let cfg := if o.NoColor then { cfg with ColorOutput := false } else cfg
  let cfg := if o.Compact then { cfg with CompactOutput := true } else cfg
  let cfg :=
    if o.Component != [] then { cfg with IncludeComponents := [o.Component] } else cfg
  let cfg := if o.MinLevel != [] then { cfg with MinLevel := o.MinLevel } else cfg
  cfg

/-- The level-base score contribution named by the specification:
0 for DEBUG and INFO, 20 for WARN, 50 for ERROR, 100 for FATAL. -/
def levelBase : LogLevel → Int
  | .DEBUG => 0
  | .INFO => 0
  | .WARN => 20
  | .ERROR => 50
  | .FATAL => 100

/-- The number of patterns of a list matching a line. -/
def countMatches (pats : List Pat) (line : Str) : Nat :=
  (pats.filter (fun p => p line)).length

/-- Does any pattern of the list match the line? -/
def anyMatch (pats : List Pat) (line : Str) : Bool :=
  pats.any (fun p => p line)

/-- The mapping from a matched structured token to the level the
specification assigns to it (`CRITICAL` maps to `FATAL`). -/
def mapToken : LvlToken → LogLevel
  | .TFATAL => .FATAL
  | .TCRITICAL => .FATAL
  | .TERROR => .ERROR
  | .TWARN => .WARN
  | .TINFO => .INFO
  | .TDEBUG => .DEBUG

/-- A detector with no compiled patterns and the default configuration. -/
def emptyDetector : AnomalyDetector where
  errorPatterns := []
  slowPatterns := []
  suspiciousIPs := []
  errorKeywords := defaultErrorKeywords
  lineCount := 0
  errorCount := 0
  warnCount := 0
  anomalyCount := 0
  config := DefaultConfig

theorem scorePatterns_spec (pats : List Pat) (line : Str) (w : Int) :
    ∀ (s : Int) (a : Bool),
      scorePatterns pats line w s a =
        (s + w * (countMatches pats line : Int), a || anyMatch pats line) := by
  induction pats with
  | nil => intro s a; simp [scorePatterns, countMatches, anyMatch]
  | cons p ps ih =>
    intro s a
    by_cases h : p line
    · simp only [scorePatterns, h, if_true, ih, countMatches, anyMatch,
        List.filter_cons, List.any_cons, Prod.mk.injEq]
      refine ⟨?_, by simp [h]⟩
      simp only [h, if_true, List.length_cons]
      push_cast
      ring
    · simp [scorePatterns, h, ih, countMatches, anyMatch, List.filter_cons,
        List.any_cons]

theorem parseLine_Level (d : AnomalyDetector) (line : Str) :
    ((ParseLine d line).1).Level = (classifyLevel line).level := by
  simp only [ParseLine]
  split <;> rfl

theorem parseLine_Score (d : AnomalyDetector) (line : Str) :
    ((ParseLine d line).1).Score =
      (classifyLevel line).baseScore
        + 30 * (countMatches d.errorPatterns line : Int)
        + 25 * (countMatches d.slowPatterns line : Int)
        + 40 * (countMatches d.suspiciousIPs line : Int) := by
  simp only [ParseLine, scorePatterns_spec]
  split <;> rfl

theorem parseLine_IsAnomaly (d : AnomalyDetector) (line : Str) :
    ((ParseLine d line).1).IsAnomaly =
      (anyMatch d.errorPatterns line || anyMatch d.slowPatterns line ||
        anyMatch d.suspiciousIPs line ||
        decide (((ParseLine d line).1).Score ≥ d.config.AnomalyThreshold)) := by
  simp only [ParseLine, scorePatterns_spec]
  split
  · rename_i h
    simp [h]
  · rename_i h
    simp only [Bool.false_or]
    simp [h, Bool.or_assoc]

theorem classifyLevel_baseScore (line : Str) :
    (classifyLevel line).baseScore = levelBase (classifyLevel line).level := by
  cases h : findStructToken line with
  | some t => cases t <;> simp [classifyLevel, h, levelBase]
  | none =>
    simp only [classifyLevel, h]
    repeat' split
    all_goals rfl

/-- C1: for every input line, the `Score` of the entry returned by
`ParseLine` equals the level-base contribution (0 for DEBUG and INFO, 20
for WARN, 50 for ERROR, 100 for FATAL) plus 30 for each matching compiled
error pattern, plus 25 for each matching slow pattern, plus 40 for each
matching suspicious pattern, every matching pattern counted once and the
total uncapped. -/
theorem score_is_levelBase_plus_pattern_weights (d : AnomalyDetector) (line : Str) :
    ((ParseLine d line).1).Score =
      levelBase ((ParseLine d line).1).Level
        + 30 * (countMatches d.errorPatterns line : Int)
        + 25 * (countMatches d.slowPatterns line : Int)
        + 40 * (countMatches d.suspiciousIPs line : Int) := by
  rw [parseLine_Score, parseLine_Level, classifyLevel_baseScore]

/-- C2: for every input line, the `IsAnomaly` flag of the entry returned by
`ParseLine` is true exactly when some pattern of one of the three
categories matches the line or the final `Score` reaches the configured
`AnomalyThreshold`. -/
theorem isAnomaly_iff_pattern_or_threshold (d : AnomalyDetector) (line : Str) :
    ((ParseLine d line).1).IsAnomaly = true ↔
      (anyMatch d.errorPatterns line = true ∨
        anyMatch d.slowPatterns line = true ∨
        anyMatch d.suspiciousIPs line = true ∨
        ((ParseLine d line).1).Score ≥ d.config.AnomalyThreshold) := by
  rw [parseLine_IsAnomaly]
  simp [Bool.or_eq_true, decide_eq_true_iff, or_assoc]

/-- C4: the detector's anomaly counter is incremented by `ParseLine` exactly
when the line's final `Score` reaches `AnomalyThreshold`, and then exactly
once; a line whose flag is true only because a pattern matched, with score
below the threshold, leaves the counter unchanged. -/
theorem anomalyCounter_increments_iff_threshold (d : AnomalyDetector) (line : Str) :
    ((ParseLine d line).2).anomalyCount =
      d.anomalyCount +
        (if ((ParseLine d line).1).Score ≥ d.config.AnomalyThreshold then 1 else 0) := by
  simp only [ParseLine]
  split
  · rename_i h
    simp [h]
  · rename_i h
    simp [h]

/-- C5: for a line with no structured level token, the level is inferred by
case-insensitive substring checks in the fixed order FATAL/CRITICAL, then
ERROR (suppressed when the line also contains "errors=0"), then WARN, then
INFO, else DEBUG — first match wins; in particular a line containing
"error" together with "errors=0" never classifies as ERROR on this path. -/
theorem fallback_keyword_priority (d : AnomalyDetector) (line : Str)
    (h : findStructToken line = none) :
    (((ParseLine d line).1).Level =
      (if strContains (lowerStr line) ("fatal".data)
          || strContains (lowerStr line) ("critical".data) then
        LogLevel.FATAL
       else if strContains (lowerStr line) ("error".data)
          && !(strContains (lowerStr line) ("errors=0".data)) then
        LogLevel.ERROR
       else if strContains (lowerStr line) ("warn".data) then LogLevel.WARN
       else if strContains (lowerStr line) ("info".data) then LogLevel.INFO
       else LogLevel.DEBUG)) ∧
    (strContains (lowerStr line) ("error".data) = true →
      strContains (lowerStr line) ("errors=0".data) = true →
      ((ParseLine d line).1).Level ≠ LogLevel.ERROR) := by
  constructor
  · rw [parseLine_Level]
    simp only [classifyLevel, h]
    repeat' split
    all_goals simp_all
  · intro he h0
    rw [parseLine_Level]
    simp only [classifyLevel, h, he, h0]
    repeat' split
    all_goals simp_all

/-- Witness for C5 at the concrete line `job ok errors=0`. -/
theorem fallback_keyword_priority_w :
    ((ParseLine emptyDetector ("job ok errors=0".data)).1).Level ≠ LogLevel.ERROR :=
  (fallback_keyword_priority emptyDetector ("job ok errors=0".data) (by decide)).2
    (by decide) (by decide)

theorem findStructAux_some_of_match (pre suf : Str) :
    ∀ (bdry : Bool) (t : LvlToken),
      (pre = [] → bdry = true) →
      (∀ p, pre.getLast? = some p → isWordChar p = false) →
      matchTokenAt suf = some t →
      ∃ t', findStructAux bdry (pre ++ suf) = some t' := by
  induction pre with
  | nil =>
    intro bdry t h1 h2 hm
    have hb : bdry = true := h1 rfl
    subst hb
    cases suf with
    | nil =>
      rw [show matchTokenAt ([] : Str) = none from rfl] at hm
      exact absurd hm (by simp)
    | cons c cs =>
      refine ⟨t, ?_⟩
      simp only [List.nil_append, findStructAux, if_true, hm]
  | cons p ps ih =>
    intro bdry t h1 h2 hm
    rw [List.cons_append]
    cases hma : (if bdry then matchTokenAt (p :: (ps ++ suf)) else none) with
    | some t0 =>
      exact ⟨t0, by simp only [findStructAux, hma]⟩
    | none =>
      have step : findStructAux bdry (p :: (ps ++ suf)) =
          findStructAux (!(isWordChar p)) (ps ++ suf) := by
        simp only [findStructAux, hma]
      rw [step]
      apply ih (!(isWordChar p)) t
      · intro hps
        subst hps
        have hw : isWordChar p = false := h2 p (by simp)
        simp [hw]
      · intro q hq
        apply h2 q
        cases ps with
        | nil => simp at hq
        | cons a as => rw [List.getLast?_cons_cons]; exact hq
      · exact hm

theorem parseLine_Level_of_structured (d : AnomalyDetector) (line : Str) (t : LvlToken)
    (h : findStructToken line = some t) :
    ((ParseLine d line).1).Level = mapToken t := by
  rw [parseLine_Level]
  cases t <;> simp [classifyLevel, h, mapToken]

/-- C6: whenever a line contains a structured token — one of the six level
names, case-insensitive, at a word boundary and immediately followed by
whitespace and an opening bracket — the inferred level is the mapped
structured token found in the line (with CRITICAL mapped to FATAL). -/
theorem structured_token_determines_level (d : AnomalyDetector) (pre suf : Str)
    (t : LvlToken)
    (hbdry : ∀ p, pre.getLast? = some p → isWordChar p = false)
    (hmatch : matchTokenAt suf = some t) :
    ∃ t', findStructToken (pre ++ suf) = some t' ∧
      ((ParseLine d (pre ++ suf)).1).Level = mapToken t' := by
  obtain ⟨t', ht'⟩ :=
    findStructAux_some_of_match pre suf true t (fun _ => rfl) hbdry hmatch
  exact ⟨t', ht', parseLine_Level_of_structured d _ t' ht'⟩

/-- Witness for C6 at the concrete line `critical [db] disk failure`. -/
theorem structured_token_determines_level_w :
    ∃ t', findStructToken (([] : Str) ++ ("critical [db] disk failure".data)) = some t' ∧
      ((ParseLine emptyDetector (([] : Str) ++ ("critical [db] disk failure".data))).1).Level
        = mapToken t' :=
  structured_token_determines_level emptyDetector [] ("critical [db] disk failure".data)
    LvlToken.TCRITICAL (by intro p hp; simp at hp) (by decide)

/-- C3 (failing-input evaluation): parsing a command line carrying only the
`--all` flag — every other flag keeps its registered default, in particular
`--min-level` defaults to the string `WARN` — and applying the options to
the default config leaves `MinLevel` equal to `WARN`, not `DEBUG`: the
final unconditional `MinLevel` override in `ApplyToConfig` clobbers the
value the `--all` branch set. -/
theorem allFlag_minLevel_stays_WARN :
    ((CLIOptions.ApplyToConfig { ParseCLIDefaults with ShowAll := true } DefaultConfig).MinLevel
        = ("WARN".data)) ∧
    ((CLIOptions.ApplyToConfig { ParseCLIDefaults with ShowAll := true } DefaultConfig).MinLevel
        ≠ ("DEBUG".data)) := by
  refine ⟨rfl, ?_⟩
  decide

theorem compileList_ok_not_error (compile : Str → Except Str Pat) (ps : List Str)
    (p : Str) (hp : p ∈ ps) (e : Str) (hc : compile p = Except.error e) :
    ∀ rs, compileList compile ps ≠ Except.ok rs := by
  induction ps with
  | nil => cases hp
  | cons q qs ih =>
    intro rs hok
    rw [List.mem_cons] at hp
    cases hq : compile q with
    | error e2 =>
      simp only [compileList, hq] at hok
      exact Except.noConfusion hok
    | ok r =>
      cases hrec : compileList compile qs with
      | error e2 =>
        simp only [compileList, hq, hrec] at hok
        exact Except.noConfusion hok
      | ok rs2 =>
        rcases hp with rfl | hp
        · rw [hq] at hc; cases hc
        · exact ih hp rs2 hrec

theorem compilePatterns_error_of_failure (compile : Str → Except Str Pat)
    (cfg : Config) (p e : Str)
    (hp : p ∈ cfg.ErrorPatterns ∨ p ∈ cfg.SlowPatterns ∨ p ∈ cfg.SuspiciousPatterns)
    (hc : compile p = Except.error e) :
    ∃ e', cfg.CompilePatterns compile = Except.error e' := by
  unfold Config.CompilePatterns
  cases h1 : compileList compile cfg.ErrorPatterns with
  | error e1 => exact ⟨e1, rfl⟩
  | ok r1 =>
    cases h2 : compileList compile cfg.SlowPatterns with
    | error e2 => exact ⟨e2, rfl⟩
    | ok r2 =>
      cases h3 : compileList compile cfg.SuspiciousPatterns with
      | error e3 => exact ⟨e3, rfl⟩
      | ok r3 =>
        exfalso
        rcases hp with hp | hp | hp
        · exact compileList_ok_not_error compile _ p hp e hc r1 h1
        · exact compileList_ok_not_error compile _ p hp e hc r2 h2
        · exact compileList_ok_not_error compile _ p hp e hc r3 h3

/-- C7: if any single configured pattern of any category fails to compile,
the whole batch fails, the constructed detector falls back to empty pattern
sets in all three categories, and every subsequent score is the level-base
contribution alone, with the anomaly flag then driven only by the
threshold comparison. -/
theorem compile_failure_empty_patterns (compile : Str → Except Str Pat)
    (cfg : Config) (p e : Str)
    (hp : p ∈ cfg.ErrorPatterns ∨ p ∈ cfg.SlowPatterns ∨ p ∈ cfg.SuspiciousPatterns)
    (hc : compile p = Except.error e) :
    (NewDetectorWithConfig compile cfg).errorPatterns = [] ∧
    (NewDetectorWithConfig compile cfg).slowPatterns = [] ∧
    (NewDetectorWithConfig compile cfg).suspiciousIPs = [] ∧
    ∀ line : Str,
      ((ParseLine (NewDetectorWithConfig compile cfg) line).1).Score =
        levelBase ((ParseLine (NewDetectorWithConfig compile cfg) line).1).Level ∧
      ((ParseLine (NewDetectorWithConfig compile cfg) line).1).IsAnomaly =
        decide (((ParseLine (NewDetectorWithConfig compile cfg) line).1).Score
          ≥ cfg.AnomalyThreshold) := by
  obtain ⟨e', he'⟩ := compilePatterns_error_of_failure compile cfg p e hp hc
  have hd : NewDetectorWithConfig compile cfg =
      { errorPatterns := []
        slowPatterns := []
        suspiciousIPs := []
        errorKeywords := defaultErrorKeywords
        lineCount := 0, errorCount := 0, warnCount := 0, anomalyCount := 0
        config := cfg } := by
    unfold NewDetectorWithConfig
    rw [he']
  rw [hd]
  refine ⟨rfl, rfl, rfl, ?_⟩
  intro line
  constructor
  · rw [parseLine_Score, parseLine_Level, classifyLevel_baseScore]
    simp [countMatches]
  · rw [parseLine_IsAnomaly]
    simp [anyMatch]

/-- A compile oracle that fails exactly on the pattern string `boom`. -/
def compileW : Str → Except Str Pat :=
  fun p =>
    if p == ("boom".data) then Except.error ("bad".data)
    else Except.ok (fun _ => false)

/-- A config whose error-pattern list contains the failing pattern `boom`. -/
def cfgW7 : Config := { DefaultConfig with ErrorPatterns := [("boom".data)] }

/-- Witness for C7: a failing pattern in the error category empties all
pattern sets and scoring at a concrete line is level-base only. -/
theorem compile_failure_empty_patterns_w :
    (NewDetectorWithConfig compileW cfgW7).errorPatterns = [] ∧
    ((ParseLine (NewDetectorWithConfig compileW cfgW7) ("boom at boot".data)).1).Score =
      levelBase
        ((ParseLine (NewDetectorWithConfig compileW cfgW7) ("boom at boot".data)).1).Level := by
  have h := compile_failure_empty_patterns compileW cfgW7 ("boom".data) ("bad".data)
    (Or.inl (by decide)) rfl
  exact ⟨h.1, (h.2.2.2 ("boom at boot".data)).1⟩

/-- C8: the filter shows an entry exactly when the minimum-level gate, the
include gate and the exclude gate all pass; in particular an entry whose
extracted component is listed in `ExcludeComponents` is always rejected,
even when `IncludeComponents` also lists it. -/
theorem shouldShow_gates_characterization (c : Config) (e : LogEntry) :
    c.ShouldShow e = true ↔
      (LogLevel.lt e.Level c.parseMinLevel = false ∧
        (c.IncludeComponents = [] ∨
          c.IncludeComponents.contains (extractComponent e.Raw) = true) ∧
        c.ExcludeComponents.contains (extractComponent e.Raw) = false) := by
  simp only [Config.ShouldShow]
  by_cases hlt : LogLevel.lt e.Level c.parseMinLevel
  · simp [hlt]
  · simp only [Bool.not_eq_true] at hlt
    simp only [hlt, Bool.false_eq_true, if_false]
    by_cases hinc : c.IncludeComponents = []
    · simp [hinc, Bool.not_eq_true']
    · by_cases hcon : c.IncludeComponents.contains (extractComponent e.Raw)
      · simp [hcon, Bool.not_eq_true']
      · simp only [Bool.not_eq_true] at hcon
        have hlen : 0 < c.IncludeComponents.length := List.length_pos.mpr hinc
        simp [hcon, hinc, hlen]

/-- C9: a `MinLevel` string that is none of FATAL/ERROR/WARN/INFO parses to
`DEBUG`, the minimum-level gate then rejects no level, and the filter
decision reduces to the component gates alone. -/
theorem invalid_minLevel_fail_open (c : Config)
    (h : c.MinLevel ∉
      ([("FATAL".data), ("ERROR".data), ("WARN".data), ("INFO".data)] : List Str)) :
    c.parseMinLevel = LogLevel.DEBUG ∧
    (∀ e : LogEntry, LogLevel.lt e.Level c.parseMinLevel = false) ∧
    (∀ e : LogEntry,
      c.ShouldShow e =
        (if decide (0 < c.IncludeComponents.length)
              && !(c.IncludeComponents.contains (extractComponent e.Raw)) then false
         else !(c.ExcludeComponents.contains (extractComponent e.Raw)))) := by
  simp only [List.mem_cons, List.not_mem_nil, or_false, not_or] at h
  obtain ⟨h1, h2, h3, h4⟩ := h
  have hpm : c.parseMinLevel = LogLevel.DEBUG := by
    simp [Config.parseMinLevel, h1, h2, h3, h4]
  have hgate : ∀ e : LogEntry, LogLevel.lt e.Level c.parseMinLevel = false := by
    intro e
    rw [hpm]
    cases hL : e.Level <;> rfl
  refine ⟨hpm, hgate, ?_⟩
  intro e
  simp only [Config.ShouldShow, hgate e, Bool.false_eq_true, if_false]

/-- Witness for C9 at the concrete `MinLevel` string `verbose`. -/
theorem invalid_minLevel_fail_open_w :
    ({ DefaultConfig with MinLevel := ("verbose".data) } : Config).parseMinLevel
        = LogLevel.DEBUG ∧
    ({ DefaultConfig with MinLevel := ("verbose".data) } : Config).ShouldShow
        { Level := LogLevel.DEBUG, Message := [], Raw := ("[db] dbg".data)
        , IsAnomaly := false, Score := 0 } = true := by
  have h := invalid_minLevel_fail_open
    { DefaultConfig with MinLevel := ("verbose".data) } (by decide)
  refine ⟨h.1, ?_⟩
  rw [h.2.2 _]
  decide

/-- C10: the filter decision depends only on the entry's level and raw line
together with `MinLevel` and the component lists: changing `ShowDebug` and
`ShowInfo` arbitrarily never changes the result of `ShouldShow`. -/
theorem showFlags_never_influence_filter (c : Config) (e : LogEntry) (sd si : Bool) :
    Config.ShouldShow { c with ShowDebug := sd, ShowInfo := si } e
      = Config.ShouldShow c e := rfl
